import Mathlib

/-!
Shallow embedding of the GstRerunSink element (gstrerunsink.cpp) and proofs
about its buffer-routing, extraction, packetizing and session-start logic.

Conventions of the embedding:
* GStreamer flow codes are the inductive `GstFlowReturn` (only the three codes
  the sink produces).
* The element's private state `_GstRerunSinkPrivate` is the structure `Priv`;
  the pointer field `rec_stream` is modelled by a `Bool` recording whether the
  handle is non-null.
* A caps structure is `Caps`; `gst_structure_get_int` leaves its output at 0
  when the field is absent, which is modelled by `Option Nat` plus `getD 0`.
* Buffer mapping, device-surface mapping, device synchronization and the
  external sink calls are effects of the environment; they enter as explicit
  boolean outcomes and the calls the code makes are recorded in event lists
  (`Emission`, `ResEvent`, `StartAction`).
* Device surfaces carry their bytes as offset-indexed functions so that the
  pitched row-extraction loops of `process_nvmm_buffer` can be stated exactly.
-/

namespace RerunSink

/-- Flow codes returned by the sink (subset of GstFlowReturn used by the code). -/
inductive GstFlowReturn where
  | ok
  | error
  | notNegotiated
deriving DecidableEq, Repr

/-- Raw pixel formats; `otherFmt` stands for any GstVideoFormat outside the
five the sink handles. -/
inductive VideoFormat where
  | RGB
  | RGBA
  | GRAY8
  | NV12
  | I420
  | otherFmt (code : Nat)
deriving DecidableEq, Repr

/-- Codec tags of rerun::components::VideoCodec used by the sink. -/
inductive VideoCodec where
  | h264
  | h265
deriving DecidableEq, Repr

/-- A caps structure: media-type name, the integer fields read by the code
(absent fields are `none`), and the raw video format when the caps describe
raw video. -/
structure Caps where
  name : String
  width : Option Nat := none
  height : Option Nat := none
  rawFormat : Option VideoFormat := none
deriving DecidableEq, Repr

/-- The part of GstVideoInfo the code reads. -/
structure VideoInfo where
  fmt : VideoFormat
  width : Nat
  height : Nat
deriving DecidableEq, Repr

/-- gst_video_info_from_caps: succeeds on raw-video caps carrying a format
and both dimensions. -/
def gst_video_info_from_caps (c : Caps) : Option VideoInfo :=
  if c.name = "video/x-raw" then
    match c.rawFormat, c.width, c.height with
    | some f, some w, some h => some ⟨f, w, h⟩
    | _, _, _ => none
  else none

/-- The element's private state (_GstRerunSinkPrivate); `rec_stream = true`
means the RecordingStream pointer is non-null. -/
structure Priv where
  rec_stream : Bool
  rerun_initialized : Bool
  recording_id : Option String
  image_path : Option String
  video_path : Option String
  spawn_viewer : Bool
  output_file : Option String
  grpc_address : Option String
  codec_sent : Bool
deriving DecidableEq, Repr

/-- DEFAULT_GRPC_ADDRESS from the source. -/
def DEFAULT_GRPC_ADDRESS : String := "127.0.0.1:9876"

/-- gst_rerun_sink_init: the state a fresh element starts in. -/
def gst_rerun_sink_init : Priv :=
  { rec_stream := false
    rerun_initialized := false
    recording_id := none
    image_path := none
    video_path := none
    spawn_viewer := true
    output_file := none
    grpc_address := some DEFAULT_GRPC_ADDRESS
    codec_sent := false }

/-- Rerun image archetypes as built by create_image_from_format; each
supported arm stores the byte vector it was given verbatim, the default arm
is the empty image. -/
inductive ImageModel where
  | rgb24 (bytes : List Nat) (w h : Nat)
  | rgba32 (bytes : List Nat) (w h : Nat)
  | grayscale8 (bytes : List Nat) (w h : Nat)
  | nv12Img (bytes : List Nat) (w h : Nat)
  | yuv420 (bytes : List Nat) (w h : Nat)
  | emptyImage
deriving DecidableEq, Repr

/-- The byte sequence owned by an image record. -/
def ImageModel.bytes : ImageModel → List Nat
  | .rgb24 b _ _ => b
  | .rgba32 b _ _ => b
  | .grayscale8 b _ _ => b
  | .nv12Img b _ _ => b
  | .yuv420 b _ _ => b
  | .emptyImage => []

/-- create_image_from_format: fixed switch over the pixel format; the default
arm returns an empty image. -/
def create_image_from_format (raw_data : List Nat) (format : VideoFormat)
    (width height : Nat) : ImageModel :=
  match format with
  | .RGB => .rgb24 raw_data width height
  | .RGBA => .rgba32 raw_data width height
  | .GRAY8 => .grayscale8 raw_data width height
  | .NV12 => .nv12Img raw_data width height
  | .I420 => .yuv420 raw_data width height
  | .otherFmt _ => .emptyImage

/-- The supported-format test at the end of process_regular_buffer. -/
def format_supported (f : VideoFormat) : Bool :=
  match f with
  | .RGB | .RGBA | .GRAY8 | .NV12 | .I420 => true
  | .otherFmt _ => false

/-- process_regular_buffer: map the buffer (the mapped view enters as
`mapped`, `none` meaning gst_buffer_map failed), copy the whole mapped region
into raw_data, build the image, then reject unsupported formats with
GST_FLOW_NOT_NEGOTIATED. -/
def process_regular_buffer (mapped : Option (List Nat)) (info : VideoInfo) :
    GstFlowReturn × ImageModel :=
  match mapped with
  | none => (.error, .emptyImage)
  | some bytes =>
    let raw_data := bytes
    let image := create_image_from_format raw_data info.fmt info.width info.height
    if format_supported info.fmt then (.ok, image)
    else (.notNegotiated, image)

/-- Expected byte count of a normalized image. Modelled from the spec: the
packed/planar/semi-planar arithmetic of section 8 ("packed RGB =
width*height*3, RGBA = width*height*4, GRAY8 = width*height, NV12/I420 =
width*height*3/2"). -/
def spec_expected_size (f : VideoFormat) (w h : Nat) : Nat :=
  match f with
  | .RGB => w * h * 3
  | .RGBA => w * h * 4
  | .GRAY8 => w * h
  | .NV12 => w * h * 3 / 2
  | .I420 => w * h * 3 / 2
  | .otherFmt _ => 0

/-- is_encoded_format: the caps name is compared against the two codec
media types (a null caps pointer yields false). -/
def is_encoded_format (caps : Option Caps) : Bool :=
  match caps with
  | none => false
  | some c => c.name = "video/x-h264" || c.name = "video/x-h265"

/-- The codec-variable assignment inside process_encoded_video: the local
`codec` is written only in the two name-matching branches, so `none` stands
for the variable staying uninitialized. -/
def encoded_codec_assignment (caps : Caps) : Option VideoCodec :=
  if caps.name = "video/x-h264" then some .h264
  else if caps.name = "video/x-h265" then some .h265
  else none

/-- Calls the render path makes on the recording stream. -/
inductive Emission where
  | codecDescriptor (codec : Option VideoCodec)
  | setTime (t : Int)
  | videoSample (bytes : List Nat)
  | imageLog (img : ImageModel)
deriving DecidableEq, Repr

/-- Result of one process_encoded_video call: flow code, updated private
state, and the sequence of recording-stream calls made. -/
structure EncodedResult where
  flow : GstFlowReturn
  priv : Priv
  emissions : List Emission
deriving DecidableEq, Repr

/-- process_encoded_video. Guard: when the stream is not initialized, the
handle is null, or video-path is unset, the call is an immediate no-op
returning GST_FLOW_OK. Otherwise width and height are validated (absent
fields read as 0), the codec descriptor is logged once per session guarded
by codec_sent, the buffer is mapped (outcome `mapOk`, content `bytes`), the
per-entity clock is set from the DTS and one video sample is logged. -/
def process_encoded_video (p : Priv) (caps : Caps) (mapOk : Bool)
    (bytes : List Nat) (dts : Int) : EncodedResult :=
  if !(p.rerun_initialized && p.rec_stream && p.video_path.isSome) then
    ⟨.ok, p, []⟩
  else
    let width := caps.width.getD 0
    if width = 0 then ⟨.error, p, []⟩
    else
      let height := caps.height.getD 0
      if height = 0 then ⟨.error, p, []⟩
      else
        let codec := encoded_codec_assignment caps
        let p2 := if p.codec_sent then p else { p with codec_sent := true }
        let ems1 : List Emission :=
          if p.codec_sent then [] else [.codecDescriptor codec]
        if !mapOk then ⟨.error, p2, ems1⟩
        else ⟨.ok, p2, ems1 ++ [.setTime dts, .videoSample bytes]⟩

/-- The fields of a GstBuffer the render path inspects: the first memory's
allocator name (none when there is no memory or no allocator), the mapped
view (none when gst_buffer_map fails), and the decode timestamp. -/
structure RenderBuf where
  allocator_name : Option String
  mapped : Option (List Nat)
  dts : Int
deriving DecidableEq, Repr

/-- is_nvmm_memory: the first memory's allocator name is compared against
the two known device allocators. -/
def is_nvmm_memory (buf : RenderBuf) : Bool :=
  match buf.allocator_name with
  | none => false
  | some n => n = "nvfiltermemoryallocator0" || n = "nvdsmemoryallocator0"

/-- A device-resident NV12 surface: logical size, per-plane pitches, and the
mapped plane bytes as offset-indexed functions. -/
structure NvSurface where
  width : Nat
  height : Nat
  y_pitch : Nat
  uv_pitch : Nat
  y_byte : Nat → Nat
  uv_byte : Nat → Nat

/-- Resource events of the device route: host-buffer map/unmap and
device-surface map/unmap. -/
inductive ResEvent where
  | hostMap
  | hostUnmap
  | devMap
  | devUnmap
deriving DecidableEq, Repr

/-- Environment outcomes of one process_nvmm_buffer call together with the
surface contents. -/
structure NvmmInput where
  hostMapOk : Bool
  surfaceNonNull : Bool
  devMapOk : Bool
  syncOk : Bool
  yPtrNull : Bool
  uvPtrNull : Bool
  surf : NvSurface

/-- Concatenation of the rows `f 0 ++ f 1 ++ ... ++ f (n-1)`, the order the
insertion loops of process_nvmm_buffer append them. -/
def rowConcat (f : Nat → List Nat) : Nat → List Nat
  | 0 => []
  | n + 1 => rowConcat f n ++ f n

/-- One plane-extraction loop: `rows` rows, each taking `width` bytes from
the start of a `pitch`-strided row. -/
def depad_plane (byte : Nat → Nat) (pitch width rows : Nat) : List Nat :=
  rowConcat (fun i => (List.range width).map (fun j => byte (i * pitch + j))) rows

/-- The raw_data vector built by the two copy loops of process_nvmm_buffer:
height depadded luma rows then height/2 depadded chroma rows. -/
def nvmm_raw_data (s : NvSurface) : List Nat :=
  depad_plane s.y_byte s.y_pitch s.width s.height ++
    depad_plane s.uv_byte s.uv_pitch s.width (s.height / 2)

/-- Tightly packed NV12 content of the logical pixel functions `lum` and
`chr`: what an unpadded host NV12 buffer holding the same pixels contains. -/
def packed_nv12 (lum chr : Nat → Nat → Nat) (w h : Nat) : List Nat :=
  rowConcat (fun i => (List.range w).map (lum i)) h ++
    rowConcat (fun i => (List.range w).map (chr i)) (h / 2)

/-- process_nvmm_buffer: map the host buffer, cast to a surface, map the
surface for CPU access, sync for CPU, check both plane pointers, run the two
depadding copy loops, build an NV12 image (rejecting any other negotiated
format after the copy), and release the device mapping then the host mapping
on every exit path that acquired them. -/
def process_nvmm_buffer (inp : NvmmInput) (infoFmt : VideoFormat) :
    GstFlowReturn × ImageModel × List ResEvent :=
  if !inp.hostMapOk then (.error, .emptyImage, [])
  else if !inp.surfaceNonNull then (.error, .emptyImage, [.hostMap, .hostUnmap])
  else if !inp.devMapOk then (.error, .emptyImage, [.hostMap, .hostUnmap])
  else if !inp.syncOk then
    (.error, .emptyImage, [.hostMap, .devMap, .devUnmap, .hostUnmap])
  else if inp.yPtrNull then
    (.error, .emptyImage, [.hostMap, .devMap, .devUnmap, .hostUnmap])
  else if inp.uvPtrNull then
    (.error, .emptyImage, [.hostMap, .devMap, .devUnmap, .hostUnmap])
  else
    let raw_data := nvmm_raw_data inp.surf
    if infoFmt = .NV12 then
      (.ok, .nv12Img raw_data inp.surf.width inp.surf.height,
        [.hostMap, .devMap, .devUnmap, .hostUnmap])
    else
      (.notNegotiated, .emptyImage, [.hostMap, .devMap, .devUnmap, .hostUnmap])

/-- The three routes a rendered buffer can take. -/
inductive Route where
  | encoded
  | device
  | host
deriving DecidableEq, Repr

/-- The classification made by gst_rerun_sink_render (with device support
compiled in when `nvmm_compiled` is true): encoded caps first, then device
memory, then the host path. -/
def render_route (caps : Caps) (buf : RenderBuf) (nvmm_compiled : Bool) : Route :=
  if is_encoded_format (some caps) then .encoded
  else if nvmm_compiled && is_nvmm_memory buf then .device
  else .host

/-- gst_rerun_sink_render: fetch caps (none models a null caps pointer),
route the buffer, run the matching extractor, and forward the image to the
stream only on GST_FLOW_OK when the stream is initialized, non-null and
image-path is set. -/
def gst_rerun_sink_render (p : Priv) (capsOpt : Option Caps) (buf : RenderBuf)
    (nvmm_compiled : Bool) (nv : NvmmInput) :
    GstFlowReturn × Priv × List Emission :=
  match capsOpt with
  | none => (.error, p, [])
  | some caps =>
    if is_encoded_format (some caps) then
      let r := process_encoded_video p caps buf.mapped.isSome
        (buf.mapped.getD []) buf.dts
      (r.flow, r.priv, r.emissions)
    else
      match gst_video_info_from_caps caps with
      | none => (.error, p, [])
      | some info =>
        let pr :=
          if nvmm_compiled && is_nvmm_memory buf then
            let r := process_nvmm_buffer nv info.fmt
            (r.1, r.2.1)
          else process_regular_buffer buf.mapped info
        if pr.1 ≠ GstFlowReturn.ok then (pr.1, p, [])
        else if p.rerun_initialized && p.rec_stream && p.image_path.isSome then
          (.ok, p, [.imageLog pr.2])
        else (.ok, p, [])

/-- External sink-open calls made by gst_rerun_sink_start. -/
inductive StartAction where
  | save
  | connectGrpc
  | spawn
deriving DecidableEq, Repr

/-- Result of gst_rerun_sink_start: the gboolean return, the updated private
state, and the sink-open calls attempted. -/
structure StartOutcome where
  ok : Bool
  priv : Priv
  actions : List StartAction
deriving DecidableEq, Repr

/-- The custom-grpc test in gst_rerun_sink_start: the address is non-null
and differs from DEFAULT_GRPC_ADDRESS. -/
def has_custom_grpc (p : Priv) : Bool :=
  match p.grpc_address with
  | none => false
  | some a => a ≠ DEFAULT_GRPC_ADDRESS

/-- gst_rerun_sink_start. When not yet initialized: allocate the recording
stream, reject the disk+network conflict (deleting and nulling the handle),
otherwise try exactly one of save / connect_grpc / spawn (outcomes given by
`saveOk`, `connectOk`, `spawnOk`); on save or connect failure the handle is
deleted and nulled, on spawn failure the code returns FALSE without touching
the handle; on success codec_sent is reset and the state becomes Active. -/
def gst_rerun_sink_start (p : Priv) (saveOk connectOk spawnOk : Bool) :
    StartOutcome :=
  if p.rerun_initialized then ⟨true, p, []⟩
  else
    let p1 : Priv := { p with rec_stream := true }
    let has_output_file := p.output_file.isSome
    let grpcCustom := has_custom_grpc p
    if has_output_file && grpcCustom then
      ⟨false, { p1 with rec_stream := false }, []⟩
    else if has_output_file then
      if saveOk then
        ⟨true, { p1 with codec_sent := false, rerun_initialized := true }, [.save]⟩
      else ⟨false, { p1 with rec_stream := false }, [.save]⟩
    else if grpcCustom then
      if connectOk then
        ⟨true, { p1 with codec_sent := false, rerun_initialized := true },
          [.connectGrpc]⟩
      else ⟨false, { p1 with rec_stream := false }, [.connectGrpc]⟩
    else if p.spawn_viewer then
      if spawnOk then
        ⟨true, { p1 with codec_sent := false, rerun_initialized := true }, [.spawn]⟩
      else ⟨false, p1, [.spawn]⟩
    else ⟨true, { p1 with codec_sent := false, rerun_initialized := true }, []⟩

/-- gst_rerun_sink_stop: release the handle and leave the Active state. -/
def gst_rerun_sink_stop (p : Priv) : Bool × Priv :=
  if p.rec_stream then
    (true,
      { p with
          rec_stream := false
          rerun_initialized := false
          codec_sent := false })
  else (true, p)

/-- One encoded-route render call of a session trace: the caps, whether the
buffer map succeeds, the mapped bytes and the DTS. -/
structure EncCall where
  caps : Caps
  mapOk : Bool
  bytes : List Nat
  dts : Int
deriving DecidableEq, Repr

/-- A call that reaches the codec-descriptor emission point of
process_encoded_video: both dimensions present and non-zero. The buffer map
comes only after the descriptor emission in the code, so its outcome does not
gate the announcement. -/
def valid_dims (c : EncCall) : Bool :=
  c.caps.width.getD 0 ≠ 0 && c.caps.height.getD 0 ≠ 0

/-- Run a list of encoded-route calls through process_encoded_video,
threading the private state and collecting each call's emissions. -/
def run_encoded_calls (p : Priv) : List EncCall → Priv × List (List Emission)
  | [] => (p, [])
  | c :: rest =>
    let r := process_encoded_video p c.caps c.mapOk c.bytes c.dts
    let t := run_encoded_calls r.priv rest
    (t.1, r.emissions :: t.2)

/-- Number of codec-descriptor emissions in one call's emission list. -/
def countDesc (ems : List Emission) : Nat :=
  ems.countP (fun e => match e with | .codecDescriptor _ => true | _ => false)

/-- Number of video-sample emissions in one call's emission list. -/
def countSample (ems : List Emission) : Nat :=
  ems.countP (fun e => match e with | .videoSample _ => true | _ => false)

/-- Descriptor-count pattern of a session of n reaching calls: one on the
first call, zero afterwards. -/
def descPattern : Nat → List Nat
  | 0 => []
  | n + 1 => 1 :: List.replicate n 0

/-- Sample state: initialized element with a video path configured. -/
def encReadyPriv : Priv :=
  { gst_rerun_sink_init with
      rerun_initialized := true
      rec_stream := true
      video_path := some "camera/encoded" }

/-- Sample state: initialized element without a video path. -/
def encNoPathPriv : Priv := { encReadyPriv with video_path := none }

/-- Sample H.264 caps missing both dimension fields. -/
def capsNoWidth : Caps := { name := "video/x-h264" }

/-- Sample well-formed H.264 caps. -/
def capsEncOk : Caps :=
  { name := "video/x-h264", width := some 640, height := some 480 }

/-- Sample raw caps with a pixel format outside the supported set. -/
def capsRawOther : Caps :=
  { name := "video/x-raw", width := some 1, height := some 1,
    rawFormat := some (.otherFmt 7) }

/-- Sample host buffer with a 4-byte mapped view. -/
def hostBuf : RenderBuf :=
  { allocator_name := none, mapped := some [0, 0, 0, 0], dts := 0 }

/-- Sample device buffer: first memory owned by a known device allocator. -/
def nvBuf : RenderBuf :=
  { allocator_name := some "nvdsmemoryallocator0", mapped := some [], dts := 0 }

/-- Sample 2x2 device surface with pitch 3 on both planes. -/
def sampleSurface : NvSurface :=
  ⟨2, 2, 3, 3, fun o => o % 251, fun o => (o + 100) % 251⟩

/-- Sample device-route environment where every step succeeds. -/
def allOkNvmm : NvmmInput := ⟨true, true, true, true, false, false, sampleSurface⟩

/-- Logical luma content of sampleSurface. -/
def sampleLum (i j : Nat) : Nat := (i * 3 + j) % 251

/-- Logical chroma content of sampleSurface. -/
def sampleChr (i j : Nat) : Nat := (i * 3 + j + 100) % 251

/-- Sample conflicting configuration: output file and custom grpc address. -/
def pConflict : Priv :=
  { gst_rerun_sink_init with
      output_file := some "out.rrd"
      grpc_address := some "192.168.0.1:9876" }

/-- Sample configuration for an encoded session: fresh element with a video
path set. -/
def pSession : Priv := { gst_rerun_sink_init with video_path := some "camera/encoded" }

end RerunSink

namespace RerunSink

/-- Helper: the early-return of process_encoded_video when the guard fails. -/
theorem process_encoded_video_guard_false (p : Priv) (caps : Caps)
    (mapOk : Bool) (bytes : List Nat) (dts : Int)
    (h : (p.rerun_initialized && p.rec_stream && p.video_path.isSome) = false) :
    process_encoded_video p caps mapOk bytes dts = ⟨.ok, p, []⟩ := by
  unfold process_encoded_video
  rw [h]
  rfl

/-- C1, counterexample: with the video path unset, an encoded buffer whose
caps carry no width is accepted with GST_FLOW_OK, while the same buffer with
the path set fails validation with GST_FLOW_ERROR — the validation outcome is
not the same whether or not the video path is set. -/
theorem c1_validation_differs_counterexample :
    (process_encoded_video encNoPathPriv capsNoWidth true [] 0).flow =
      GstFlowReturn.ok ∧
    (process_encoded_video encReadyPriv capsNoWidth true [] 0).flow =
      GstFlowReturn.error ∧
    (process_encoded_video encNoPathPriv capsNoWidth true [] 0).flow ≠
      (process_encoded_video encReadyPriv capsNoWidth true [] 0).flow := by
  refine ⟨rfl, rfl, ?_⟩
  decide

/-- C1 (amended): when the video entity path is not configured (or the stream
is not initialized or the handle is null), process_encoded_video returns
GST_FLOW_OK immediately, performing no width/height validation, no state
change and no emission; the width/height checks run only when the guard
passes. -/
theorem c1_no_path_skips_validation (p : Priv) (caps : Caps) (mapOk : Bool)
    (bytes : List Nat) (dts : Int)
    (h : p.video_path.isSome = false) :
    process_encoded_video p caps mapOk bytes dts = ⟨.ok, p, []⟩ := by
  apply process_encoded_video_guard_false
  simp [h]

/-- Witness for c1_no_path_skips_validation at a concrete state and caps. -/
theorem c1_no_path_skips_validation_witness :
    process_encoded_video encNoPathPriv capsEncOk true [] 0 =
      ⟨.ok, encNoPathPriv, []⟩ :=
  c1_no_path_skips_validation encNoPathPriv capsEncOk true [] 0 (by decide)

/-- C10: whenever the caps pass the is_encoded_format check guarding the
call to process_encoded_video in the render path, the local codec variable is
assigned by one of the two codec branches, so the read at the descriptor
emission never sees an unassigned value. -/
theorem c10_codec_always_assigned (caps : Caps)
    (h : is_encoded_format (some caps) = true) :
    (encoded_codec_assignment caps).isSome = true := by
  unfold is_encoded_format at h
  unfold encoded_codec_assignment
  by_cases h1 : caps.name = "video/x-h264"
  · simp [h1]
  · by_cases h2 : caps.name = "video/x-h265"
    · simp [h1, h2]
    · simp [h1, h2] at h

/-- Witness for c10_codec_always_assigned on H.264 caps. -/
theorem c10_codec_always_assigned_witness :
    (encoded_codec_assignment capsEncOk).isSome = true :=
  c10_codec_always_assigned capsEncOk (by decide)

/-- C2, counterexample: the host route copies the whole mapped view, so a
supported format (RGB at 1x1) with a 4-byte mapped view yields a byte
sequence of length 4, not expected_size = 3, and the extraction read 4 bytes,
more than width*height*bytes_per_pixel = 3. -/
theorem c2_size_counterexample :
    format_supported VideoFormat.RGB = true ∧
    ((process_regular_buffer (some [0, 0, 0, 0]) ⟨.RGB, 1, 1⟩).2).bytes.length = 4 ∧
    spec_expected_size VideoFormat.RGB 1 1 = 3 ∧
    ((process_regular_buffer (some [0, 0, 0, 0]) ⟨.RGB, 1, 1⟩).2).bytes.length ≠
      spec_expected_size VideoFormat.RGB 1 1 := by
  decide

/-- C2 (amended): for every supported raw format the byte sequence produced
by process_regular_buffer is exactly the mapped view (length map.size, every
mapped byte and only mapped bytes are read); its length equals
expected_size(format, width, height) exactly when the mapped view is tightly
packed, i.e. when map.size already equals that arithmetic. -/
theorem c2_regular_buffer_full_copy (bytes : List Nat) (info : VideoInfo)
    (hs : format_supported info.fmt = true) :
    ((process_regular_buffer (some bytes) info).2).bytes = bytes ∧
    (bytes.length = spec_expected_size info.fmt info.width info.height →
      ((process_regular_buffer (some bytes) info).2).bytes.length =
        spec_expected_size info.fmt info.width info.height) := by
  obtain ⟨f, w, h⟩ := info
  have h1 : ((process_regular_buffer (some bytes) ⟨f, w, h⟩).2).bytes = bytes := by
    cases f <;>
      simp_all [process_regular_buffer, create_image_from_format,
        ImageModel.bytes, format_supported]
  exact ⟨h1, fun hlen => by rw [h1, hlen]⟩

/-- Witness for c2_regular_buffer_full_copy on a tightly packed RGB 1x1
view. -/
theorem c2_regular_buffer_full_copy_witness :
    ((process_regular_buffer (some [10, 20, 30]) ⟨.RGB, 1, 1⟩).2).bytes =
      [10, 20, 30] ∧
    ([10, 20, 30].length = spec_expected_size VideoFormat.RGB 1 1 →
      ((process_regular_buffer (some [10, 20, 30]) ⟨.RGB, 1, 1⟩).2).bytes.length =
        spec_expected_size VideoFormat.RGB 1 1) :=
  c2_regular_buffer_full_copy [10, 20, 30] ⟨.RGB, 1, 1⟩ (by decide)

/-- C4: with both an output file and a custom grpc address configured, start
returns FALSE, the session stays out of Active, no save/connect/spawn call is
made, and the recording-stream handle is deleted and nulled. -/
theorem c4_conflict_aborts_start (p : Priv) (saveOk connectOk spawnOk : Bool)
    (hinit : p.rerun_initialized = false)
    (hfile : p.output_file.isSome = true)
    (hgrpc : has_custom_grpc p = true) :
    (gst_rerun_sink_start p saveOk connectOk spawnOk).ok = false ∧
    (gst_rerun_sink_start p saveOk connectOk spawnOk).priv.rerun_initialized
      = false ∧
    (gst_rerun_sink_start p saveOk connectOk spawnOk).priv.rec_stream = false ∧
    (gst_rerun_sink_start p saveOk connectOk spawnOk).actions = [] := by
  simp [gst_rerun_sink_start, hinit, hfile, hgrpc]

/-- Witness for c4_conflict_aborts_start on a concrete conflicting
configuration. -/
theorem c4_conflict_aborts_start_witness :
    (gst_rerun_sink_start pConflict true true true).ok = false ∧
    (gst_rerun_sink_start pConflict true true true).priv.rerun_initialized
      = false ∧
    (gst_rerun_sink_start pConflict true true true).priv.rec_stream = false ∧
    (gst_rerun_sink_start pConflict true true true).actions = [] :=
  c4_conflict_aborts_start pConflict true true true (by decide) (by decide)
    (by decide)

/-- C8: evaluation at the failing input. On the viewer-spawn failure branch
(default configuration, spawn fails) start returns FALSE with the
recording-stream handle still allocated (rec_stream stays non-null) — in
contrast with the disk-save failure branch, which deletes and nulls the
handle as the claim requires of all three branches. -/
theorem c8_spawn_failure_keeps_handle :
    (gst_rerun_sink_start gst_rerun_sink_init true true false).ok = false ∧
    (gst_rerun_sink_start gst_rerun_sink_init true true false).priv.rec_stream
      = true ∧
    (gst_rerun_sink_start gst_rerun_sink_init true true
      false).priv.rerun_initialized = false ∧
    (gst_rerun_sink_start
      { gst_rerun_sink_init with output_file := some "out.rrd" }
      false true true).ok = false ∧
    (gst_rerun_sink_start
      { gst_rerun_sink_init with output_file := some "out.rrd" }
      false true true).priv.rec_stream = false := by
  decide

end RerunSink

namespace RerunSink

/-- C6: classification of a rendered buffer is deterministic and exhaustive —
encoded caps names take the encoded route irrespective of memory kind;
otherwise a first-memory allocator matching a known device allocator (with
device support compiled in) takes the device route; every other buffer takes
the host route. -/
theorem c6_render_route_exhaustive (caps : Caps) (buf : RenderBuf)
    (compiled : Bool) :
    ((caps.name = "video/x-h264" ∨ caps.name = "video/x-h265") →
      render_route caps buf compiled = .encoded) ∧
    ((caps.name ≠ "video/x-h264" ∧ caps.name ≠ "video/x-h265") →
      ((compiled = true ∧
          (buf.allocator_name = some "nvfiltermemoryallocator0" ∨
            buf.allocator_name = some "nvdsmemoryallocator0")) →
        render_route caps buf compiled = .device) ∧
      (¬(compiled = true ∧
          (buf.allocator_name = some "nvfiltermemoryallocator0" ∨
            buf.allocator_name = some "nvdsmemoryallocator0")) →
        render_route caps buf compiled = .host)) := by
  constructor
  · intro h
    rcases h with h | h <;> simp [render_route, is_encoded_format, h]
  · rintro ⟨h1, h2⟩
    constructor
    · rintro ⟨hc, halloc⟩
      rcases halloc with ha | ha <;>
        simp [render_route, is_encoded_format, is_nvmm_memory, h1, h2, hc, ha]
    · intro hn
      have hc : compiled = false ∨
          (buf.allocator_name ≠ some "nvfiltermemoryallocator0" ∧
            buf.allocator_name ≠ some "nvdsmemoryallocator0") := by
        by_cases hcomp : compiled = true
        · right
          constructor
          · intro ha
            exact hn ⟨hcomp, Or.inl ha⟩
          · intro ha
            exact hn ⟨hcomp, Or.inr ha⟩
        · left
          simpa using hcomp
      rcases hc with hc | ⟨ha1, ha2⟩
      · simp [render_route, is_encoded_format, h1, h2, hc]
      · simp [render_route, is_encoded_format, is_nvmm_memory, h1, h2]
        intro
        cases hb : buf.allocator_name with
        | none => simp [is_nvmm_memory, hb]
        | some n =>
          have hn1 : n ≠ "nvfiltermemoryallocator0" := by
            intro he
            exact ha1 (by rw [hb, he])
          have hn2 : n ≠ "nvdsmemoryallocator0" := by
            intro he
            exact ha2 (by rw [hb, he])
          simp [is_nvmm_memory, hb, hn1, hn2]

/-- Witness for c6_render_route_exhaustive: one concrete buffer per route. -/
theorem c6_render_route_exhaustive_witness :
    render_route capsEncOk hostBuf true = .encoded ∧
    render_route capsRawOther nvBuf true = .device ∧
    render_route capsRawOther hostBuf true = .host :=
  ⟨(c6_render_route_exhaustive capsEncOk hostBuf true).1 (Or.inl rfl),
    ((c6_render_route_exhaustive capsRawOther nvBuf true).2
      (by decide)).1 ⟨rfl, Or.inr rfl⟩,
    ((c6_render_route_exhaustive capsRawOther hostBuf true).2
      (by decide)).2 (by decide)⟩

/-- C7: a host-route buffer with a pixel format outside the supported set is
rejected by the render path with GST_FLOW_NOT_NEGOTIATED — a code distinct
from GST_FLOW_ERROR — and no image is ever logged to the stream for that
buffer. -/
theorem c7_unsupported_format_not_negotiated (p : Priv) (caps : Caps)
    (buf : RenderBuf) (nvmm_compiled : Bool) (nv : NvmmInput) (info : VideoInfo)
    (henc : is_encoded_format (some caps) = false)
    (hinfo : gst_video_info_from_caps caps = some info)
    (hfmt : format_supported info.fmt = false)
    (hmap : buf.mapped.isSome = true)
    (hroute : (nvmm_compiled && is_nvmm_memory buf) = false) :
    gst_rerun_sink_render p (some caps) buf nvmm_compiled nv =
      (GstFlowReturn.notNegotiated, p, []) ∧
    GstFlowReturn.notNegotiated ≠ GstFlowReturn.error := by
  refine ⟨?_, by decide⟩
  obtain ⟨bytes, hb⟩ := Option.isSome_iff_exists.mp hmap
  simp [gst_rerun_sink_render, henc, hinfo, hroute, hb,
    process_regular_buffer, hfmt]

/-- Witness for c7_unsupported_format_not_negotiated on concrete caps with an
unrecognized pixel format. -/
theorem c7_unsupported_format_not_negotiated_witness :
    gst_rerun_sink_render encReadyPriv (some capsRawOther) hostBuf false
      allOkNvmm = (GstFlowReturn.notNegotiated, encReadyPriv, []) ∧
    GstFlowReturn.notNegotiated ≠ GstFlowReturn.error :=
  c7_unsupported_format_not_negotiated encReadyPriv capsRawOther hostBuf false
    allOkNvmm ⟨.otherFmt 7, 1, 1⟩ (by decide) (by decide) (by decide)
    (by decide) (by decide)

/-- C9: on every exit path of process_nvmm_buffer the acquired mappings are
exactly released — the trace of resource events is empty (host map failed),
host map/unmap only (device mapping never acquired), or host map, device map,
device unmap, host unmap: every acquisition is released, the device mapping
before the host mapping. -/
theorem c9_nvmm_trace_scoped (inp : NvmmInput) (fmt : VideoFormat) :
    (process_nvmm_buffer inp fmt).2.2 = [] ∨
    (process_nvmm_buffer inp fmt).2.2 = [.hostMap, .hostUnmap] ∨
    (process_nvmm_buffer inp fmt).2.2 =
      [.hostMap, .devMap, .devUnmap, .hostUnmap] := by
  obtain ⟨hm, sn, dm, sy, yn, un, s⟩ := inp
  by_cases hf : fmt = VideoFormat.NV12 <;>
    cases hm <;> cases sn <;> cases dm <;> cases sy <;> cases yn <;>
      cases un <;> simp [process_nvmm_buffer, hf]

end RerunSink

namespace RerunSink

/-- Helper: rowConcat respects pointwise equality of rows below the bound. -/
theorem rowConcat_congr (f g : Nat → List Nat) (n : Nat)
    (h : ∀ i, i < n → f i = g i) : rowConcat f n = rowConcat g n := by
  induction n with
  | zero => rfl
  | succ k ih =>
    rw [rowConcat, rowConcat, ih (fun i hi => h i (Nat.lt_succ_of_lt hi)),
      h k (Nat.lt_succ_self k)]

/-- Helper: length of a rowConcat of rows of uniform length. -/
theorem rowConcat_length (f : Nat → List Nat) (n w : Nat)
    (h : ∀ i, i < n → (f i).length = w) : (rowConcat f n).length = n * w := by
  induction n with
  | zero => simp [rowConcat]
  | succ k ih =>
    rw [rowConcat, List.length_append,
      ih (fun i hi => h i (Nat.lt_succ_of_lt hi)), h k (Nat.lt_succ_self k)]
    ring

/-- Helper: a depadded plane of a surface that represents pixel content
`pix` is the packed row concatenation of that content. -/
theorem depad_plane_eq (byte : Nat → Nat) (pix : Nat → Nat → Nat)
    (pitch w rows : Nat)
    (h : ∀ i, i < rows → ∀ j, j < w → byte (i * pitch + j) = pix i j) :
    depad_plane byte pitch w rows =
      rowConcat (fun i => (List.range w).map (pix i)) rows := by
  unfold depad_plane
  apply rowConcat_congr
  intro i hi
  apply List.map_congr_left
  intro j hj
  exact h i hi j (List.mem_range.mp hj)

/-- C3: for a device-resident NV12 surface whose planes hold the logical
pixel content lum/chr under row pitches at least the width, the device route
produces height depadded luma rows then height/2 depadded chroma rows of
width bytes each — a byte sequence of length width*height*3/2 that is
byte-for-byte what the host NV12 route produces when fed the same logical
content tightly packed. -/
theorem c3_nvmm_depad_exact (s : NvSurface) (lum chr : Nat → Nat → Nat)
    (hpy : s.width ≤ s.y_pitch) (hpu : s.width ≤ s.uv_pitch)
    (heven : s.height % 2 = 0)
    (hY : ∀ i, i < s.height → ∀ j, j < s.width →
      s.y_byte (i * s.y_pitch + j) = lum i j)
    (hUV : ∀ i, i < s.height / 2 → ∀ j, j < s.width →
      s.uv_byte (i * s.uv_pitch + j) = chr i j) :
    (process_nvmm_buffer ⟨true, true, true, true, false, false, s⟩
        .NV12).2.1.bytes =
      (process_regular_buffer
        (some (packed_nv12 lum chr s.width s.height))
        ⟨.NV12, s.width, s.height⟩).2.bytes ∧
    (process_nvmm_buffer ⟨true, true, true, true, false, false, s⟩
        .NV12).2.1.bytes.length = s.width * s.height * 3 / 2 := by
  have hbytes : (process_nvmm_buffer ⟨true, true, true, true, false, false, s⟩
      .NV12).2.1.bytes = nvmm_raw_data s := by
    simp [process_nvmm_buffer, ImageModel.bytes]
  have hhost : (process_regular_buffer
      (some (packed_nv12 lum chr s.width s.height))
      ⟨.NV12, s.width, s.height⟩).2.bytes =
      packed_nv12 lum chr s.width s.height := by
    simp [process_regular_buffer, format_supported, create_image_from_format,
      ImageModel.bytes]
  have heq : nvmm_raw_data s = packed_nv12 lum chr s.width s.height := by
    unfold nvmm_raw_data packed_nv12
    rw [depad_plane_eq s.y_byte lum s.y_pitch s.width s.height hY,
      depad_plane_eq s.uv_byte chr s.uv_pitch s.width (s.height / 2) hUV]
  have hlen : (nvmm_raw_data s).length = s.width * s.height * 3 / 2 := by
    unfold nvmm_raw_data depad_plane
    rw [List.length_append,
      rowConcat_length _ s.height s.width (fun i _ => by simp),
      rowConcat_length _ (s.height / 2) s.width (fun i _ => by simp)]
    obtain ⟨k, hk⟩ : ∃ k, s.height = 2 * k := ⟨s.height / 2, by omega⟩
    rw [hk]
    have h2 : 2 * k / 2 = k := by omega
    rw [h2]
    have h3 : s.width * (2 * k) * 3 = 3 * (s.width * k) * 2 := by ring
    rw [h3, Nat.mul_div_cancel _ (by norm_num)]
    ring
  exact ⟨by rw [hbytes, hhost, heq], by rw [hbytes, hlen]⟩

/-- Witness for c3_nvmm_depad_exact on a concrete 2x2 pitch-3 surface. -/
theorem c3_nvmm_depad_exact_witness :
    (process_nvmm_buffer ⟨true, true, true, true, false, false, sampleSurface⟩
        .NV12).2.1.bytes =
      (process_regular_buffer
        (some (packed_nv12 sampleLum sampleChr sampleSurface.width
          sampleSurface.height))
        ⟨.NV12, sampleSurface.width, sampleSurface.height⟩).2.bytes ∧
    (process_nvmm_buffer ⟨true, true, true, true, false, false, sampleSurface⟩
        .NV12).2.1.bytes.length =
      sampleSurface.width * sampleSurface.height * 3 / 2 :=
  c3_nvmm_depad_exact sampleSurface sampleLum sampleChr (by decide) (by decide)
    (by decide) (by decide) (by decide)

end RerunSink

namespace RerunSink

/-- Helper: a call with validated dimensions in a ready state sets
codec_sent, emits the codec descriptor exactly when it was not yet sent —
before the buffer map is attempted — and then either logs clock and one
sample (map succeeds, GST_FLOW_OK) or emits nothing further (map fails,
GST_FLOW_ERROR). -/
theorem process_encoded_video_validated (p : Priv) (c : EncCall)
    (hp : p.rerun_initialized = true) (hr : p.rec_stream = true)
    (hv : p.video_path.isSome = true) (hc : valid_dims c = true) :
    process_encoded_video p c.caps c.mapOk c.bytes c.dts =
      ⟨if c.mapOk then .ok else .error,
        { p with codec_sent := true },
        (if p.codec_sent then [] else
          [.codecDescriptor (encoded_codec_assignment c.caps)]) ++
          (if c.mapOk then [.setTime c.dts, .videoSample c.bytes] else [])⟩ := by
  simp only [valid_dims, Bool.and_eq_true, decide_eq_true_eq] at hc
  obtain ⟨hw, hh⟩ := hc
  obtain ⟨rs, ri, rid, ip, vp, sv, of, ga, cs⟩ := p
  simp only at hp hr hv
  subst hp
  subst hr
  cases cs <;> cases hm : c.mapOk <;>
    simp [process_encoded_video, hv, hw, hh, hm]

/-- Helper: counts of descriptor and sample emissions over a session trace of
dimension-valid calls, parametric in the initial codec_sent flag: the
descriptor count pattern does not depend on the map outcomes, while each
call's sample count is 1 or 0 as its map succeeds or fails. -/
theorem run_encoded_calls_counts (calls : List EncCall) (p : Priv)
    (hp : p.rerun_initialized = true) (hr : p.rec_stream = true)
    (hv : p.video_path.isSome = true)
    (hcalls : calls.all valid_dims = true) :
    ((run_encoded_calls p calls).2.map countDesc =
      if p.codec_sent then List.replicate calls.length 0
      else descPattern calls.length) ∧
    (run_encoded_calls p calls).2.map countSample =
      calls.map (fun c => if c.mapOk then 1 else 0) := by
  induction calls generalizing p with
  | nil =>
    cases hcs : p.codec_sent <;> simp [run_encoded_calls, descPattern]
  | cons c rest ih =>
    simp only [List.all_cons, Bool.and_eq_true] at hcalls
    obtain ⟨hc, hrest⟩ := hcalls
    have hstep := process_encoded_video_validated p c hp hr hv hc
    have hih := ih { p with codec_sent := true } (by simpa using hp)
      (by simpa using hr) (by simpa using hv) hrest
    simp only [run_encoded_calls, hstep]
    simp only [List.map_cons]
    cases hcs : p.codec_sent <;> cases hm : c.mapOk <;>
      simp_all [countDesc, countSample, descPattern, List.replicate_succ]

/-- Helper: when start succeeds from an uninitialized state, the resulting
private state is Active with a non-null handle and a cleared codec_sent. -/
theorem start_success_priv (p : Priv) (saveOk connectOk spawnOk : Bool)
    (hinit : p.rerun_initialized = false)
    (hok : (gst_rerun_sink_start p saveOk connectOk spawnOk).ok = true) :
    (gst_rerun_sink_start p saveOk connectOk spawnOk).priv =
      { p with
          rec_stream := true
          rerun_initialized := true
          codec_sent := false } := by
  simp only [gst_rerun_sink_start, hinit] at hok ⊢
  split_ifs at hok ⊢ <;> simp_all

/-- C5, counterexample: in a freshly started session, a first encoded-route
call with valid dimensions whose buffer map fails reaches the descriptor
emission point, emits the codec descriptor with zero video samples, returns
GST_FLOW_ERROR and consumes the once-per-session announcement, so the next
fully valid call emits one sample but no descriptor — refuting that every
call reaching the emission point emits exactly one sample. -/
theorem c5_map_failure_counterexample :
    countDesc (process_encoded_video
      (gst_rerun_sink_start pSession true true true).priv
      capsEncOk false [] 5).emissions = 1 ∧
    countSample (process_encoded_video
      (gst_rerun_sink_start pSession true true true).priv
      capsEncOk false [] 5).emissions = 0 ∧
    (process_encoded_video (gst_rerun_sink_start pSession true true true).priv
      capsEncOk false [] 5).flow = GstFlowReturn.error ∧
    (process_encoded_video (gst_rerun_sink_start pSession true true true).priv
      capsEncOk false [] 5).priv.codec_sent = true ∧
    countDesc (process_encoded_video
      (process_encoded_video (gst_rerun_sink_start pSession true true true).priv
        capsEncOk false [] 5).priv
      capsEncOk true [1] 6).emissions = 0 ∧
    countSample (process_encoded_video
      (process_encoded_video (gst_rerun_sink_start pSession true true true).priv
        capsEncOk false [] 5).priv
      capsEncOk true [1] 6).emissions = 1 := by
  decide

/-- C5 (amended): within one session the codec descriptor is emitted exactly
once, on the first encoded-route call that passes the guard and the
width/height validation — whether or not that call's buffer map succeeds,
since the descriptor is logged before the map is attempted — and each such
call emits exactly one video sample when its map succeeds and zero samples
(returning GST_FLOW_ERROR) when it fails; start clears codec_sent on every
transition to Active, so a restarted session re-announces the codec. -/
theorem c5_codec_descriptor_once (p : Priv) (saveOk connectOk spawnOk : Bool)
    (calls : List EncCall)
    (hinit : p.rerun_initialized = false)
    (hv : p.video_path.isSome = true)
    (hok : (gst_rerun_sink_start p saveOk connectOk spawnOk).ok = true)
    (hcalls : calls.all valid_dims = true) :
    (gst_rerun_sink_start p saveOk connectOk spawnOk).priv.codec_sent = false ∧
    (run_encoded_calls (gst_rerun_sink_start p saveOk connectOk spawnOk).priv
        calls).2.map countDesc = descPattern calls.length ∧
    (run_encoded_calls (gst_rerun_sink_start p saveOk connectOk spawnOk).priv
        calls).2.map countSample =
      calls.map (fun c => if c.mapOk then 1 else 0) := by
  have hpriv := start_success_priv p saveOk connectOk spawnOk hinit hok
  rw [hpriv]
  have h := run_encoded_calls_counts calls
    { p with rec_stream := true, rerun_initialized := true, codec_sent := false }
    rfl rfl (by simpa using hv) hcalls
  simp only [if_neg] at h
  exact ⟨rfl, by simpa using h.1, h.2⟩

/-- Witness for c5_codec_descriptor_once: a fresh element with a video path,
a successful spawn start, and a session of one map-failing call followed by
two fully valid calls — descriptor counts [1, 0, 0], sample counts
[0, 1, 1]. -/
theorem c5_codec_descriptor_once_witness :
    (gst_rerun_sink_start pSession true true true).priv.codec_sent = false ∧
    (run_encoded_calls (gst_rerun_sink_start pSession true true true).priv
        [⟨capsEncOk, false, [], 4⟩, ⟨capsEncOk, true, [1, 2], 5⟩,
          ⟨capsEncOk, true, [3], 6⟩]).2.map countDesc =
      descPattern [⟨capsEncOk, false, [], 4⟩, ⟨capsEncOk, true, [1, 2], 5⟩,
        (⟨capsEncOk, true, [3], 6⟩ : EncCall)].length ∧
    (run_encoded_calls (gst_rerun_sink_start pSession true true true).priv
        [⟨capsEncOk, false, [], 4⟩, ⟨capsEncOk, true, [1, 2], 5⟩,
          ⟨capsEncOk, true, [3], 6⟩]).2.map countSample =
      [⟨capsEncOk, false, [], 4⟩, ⟨capsEncOk, true, [1, 2], 5⟩,
        (⟨capsEncOk, true, [3], 6⟩ : EncCall)].map
        (fun c => if c.mapOk then 1 else 0) :=
  c5_codec_descriptor_once pSession true true true
    [⟨capsEncOk, false, [], 4⟩, ⟨capsEncOk, true, [1, 2], 5⟩,
      ⟨capsEncOk, true, [3], 6⟩]
    (by decide) (by decide) (by decide) (by decide)

end RerunSink
